import Mathlib

/-!
Verification development for the OBS Spout2 capture source
(src/win-spout.cpp). The instance state machine, its discovery,
rate-limit, update, tick, deinit and render operations are embedded
shallowly; external collaborators (the Spout sender directory,
GetTickCount, gs_texture_open_shared) are modelled as an explicit
environment record passed to each operation. Machine DWORD arithmetic
is modelled on Nat with explicit reduction modulo 2 ^ 32.
-/

/-- Result of GetSenderInfo for a sender name: width, height, shared
handle and DirectX format. -/
structure SenderInfo where
  width : Nat
  height : Nat
  handle : Nat
  format : Nat
deriving DecidableEq, Repr

/-- The external world as seen by one call into the plugin: the current
GetTickCount value, obs_source_active, and the Spout directory and
graphics import primitives. `openShared` returning `none` models
gs_texture_open_shared returning a NULL texture. -/
structure SpoutEnv where
  now : Nat
  sourceActive : Bool
  senderCount : Nat
  senderName0 : Option String
  setActiveOk : String → Bool
  senderInfo : String → Option SenderInfo
  openShared : Nat → Option Nat

/-- The `struct win_spout` instance state. `texture = none` models a
NULL gs_texture pointer; `spoutValid` models `spoutptr != NULL`. -/
structure WinSpout where
  senderName : String
  useFirstSender : Bool
  texture : Option Nat
  dxHandle : Nat
  dxFormat : Nat
  spoutValid : Bool
  lastCheckTick : Nat
  width : Nat
  height : Nat
  initialized : Bool
  active : Bool
deriving DecidableEq

/-- The two persisted configuration fields read by win_spout_update. -/
structure Settings where
  useFirst : Bool
  customName : String
deriving DecidableEq

/-- Result of win_spout_init: the new state, the number of
GetSenderCount directory queries issued, and the number of
GetSenderInfo by-name lookups issued. -/
structure InitResult where
  state : WinSpout
  dirQueries : Nat
  lookups : Nat

/-- Result of win_spout_deinit: the new state and the number of
gs_texture_destroy calls performed. -/
structure DeinitResult where
  state : WinSpout
  destroys : Nat

/-- Result of win_spout_update: the new state plus the directory
queries, by-name lookups and texture destroys performed. -/
structure UpdateResult where
  state : WinSpout
  dirQueries : Nat
  lookups : Nat
  destroys : Nat

/-- Result of win_spout_tick: the new state plus the directory queries
and by-name lookups performed by the init it may trigger. -/
structure TickResult where
  state : WinSpout
  dirQueries : Nat
  lookups : Nat

/-- The unsigned 32-bit subtraction `GetTickCount() - 5000` from the
rate-limit guard in win_spout_init (line 93). -/
def dwordSub5000 (now : Nat) : Nat :=
  (now % 2 ^ 32 + 2 ^ 32 - 5000) % 2 ^ 32

/-- `get_first_spount_sender` (lines 68-85): returns success and the
contents of the caller-supplied name buffer afterwards. GetSenderName
writes into the buffer before SetActiveSender is consulted, so on a
SetActiveSender failure the buffer already holds the first sender
name. -/
def get_first_spount_sender (env : SpoutEnv) (sender_name : String) :
    Bool × String :=
  if env.senderCount = 0 then (false, sender_name)
  else
    match env.senderName0 with
    | none => (false, sender_name)
    | some n => if env.setActiveOk n then (true, n) else (false, n)

/-- The by-name lookup tail of win_spout_init (lines 115-137):
GetSenderInfo, then on success store dimensions, destroy the old
texture, import the shared handle (possibly yielding NULL) and set
initialized = true unconditionally. -/
def win_spout_lookup (env : SpoutEnv) (s : WinSpout) : InitResult :=
  match env.senderInfo s.senderName with
  | none => ⟨s, 1, 1⟩
  | some inf =>
    ⟨{ s with
        width := inf.width
        height := inf.height
        dxHandle := inf.handle
        dxFormat := inf.format
        texture := env.openShared inf.handle
        initialized := true }, 1, 1⟩

/-- `win_spout_init` (lines 87-138). Early returns: already
initialized; rate-limit guard `GetTickCount() - 5000 < lastCheckTick`
(unsigned) when not forced; NULL spout pointer. Then one
GetSenderCount directory query on either policy branch, and the
by-name lookup on the surviving path. -/
def win_spout_init (env : SpoutEnv) (s : WinSpout) (forced : Bool) :
    InitResult :=
  if s.initialized then ⟨s, 0, 0⟩
  else if dwordSub5000 env.now < s.lastCheckTick ∧ forced = false then ⟨s, 0, 0⟩
  else if s.spoutValid = false then ⟨s, 0, 0⟩
  else if s.useFirstSender then
    match get_first_spount_sender env s.senderName with
    | (false, n) => ⟨{ s with senderName := n }, 1, 0⟩
    | (true, n) => win_spout_lookup env { s with senderName := n }
  else if env.senderCount = 0 then ⟨s, 1, 0⟩
  else win_spout_lookup env s

/-- `win_spout_deinit` (lines 140-152): clear initialized, destroy the
texture when non-NULL and null the pointer. ReleaseReceiver is an
external side effect with no instance-state footprint. -/
def win_spout_deinit (s : WinSpout) : DeinitResult :=
  let s1 := { s with initialized := false }
  match s1.texture with
  | some _ => ⟨{ s1 with texture := none }, 1⟩
  | none => ⟨s1, 0⟩

/-- `win_spout_update` (lines 160-179): store the two settings fields
(memset + strcpy replace senderName wholesale), then if initialized,
deinit followed by a non-forced init. -/
def win_spout_update (env : SpoutEnv) (s : WinSpout) (st : Settings) :
    UpdateResult :=
  let s1 := { s with
                useFirstSender := st.useFirst
                senderName := st.customName }
  if s1.initialized then
    let d := win_spout_deinit s1
    let i := win_spout_init env d.state false
    ⟨i.state, i.dirQueries, i.lookups, d.destroys⟩
  else ⟨s1, 0, 0, 0⟩

/-- `win_spout_create` (lines 211-232): bzalloc-zeroed struct, spout
handle acquired, flags cleared, placeholder 100x100 dimensions, then
win_spout_update with the initial settings. -/
def win_spout_create (env : SpoutEnv) (st : Settings) (spoutValid : Bool) :
    UpdateResult :=
  let s : WinSpout :=
    { senderName := ""
      useFirstSender := true
      texture := none
      dxHandle := 0
      dxFormat := 0
      spoutValid := spoutValid
      lastCheckTick := 0
      width := 100
      height := 100
      initialized := false
      active := false }
  win_spout_update env s st

/-- `win_spout_tick` (lines 234-244): refresh `active` from
obs_source_active, then run a non-forced init only when not
initialized. -/
def win_spout_tick (env : SpoutEnv) (s : WinSpout) : TickResult :=
  let s1 := { s with active := env.sourceActive }
  if s1.initialized then ⟨s1, 0, 0⟩
  else
    let i := win_spout_init env s1 false
    ⟨i.state, i.dirQueries, i.lookups⟩

/-- `win_spout_show` (lines 199-202): forced init, bypassing the rate
limit. -/
def win_spout_show (env : SpoutEnv) (s : WinSpout) : InitResult :=
  win_spout_init env s true

/-- `win_spout_hide` (lines 204-207): plain deinit. -/
def win_spout_hide (s : WinSpout) : DeinitResult :=
  win_spout_deinit s

/-- `win_spout_destroy` (lines 246-257): deinit; the spout Release and
bfree are external teardown with no further instance-state effect. -/
def win_spout_destroy (s : WinSpout) : DeinitResult :=
  win_spout_deinit s

/-- `win_spout_getwidth` (lines 187-191). -/
def win_spout_getwidth (s : WinSpout) : Nat :=
  s.width

/-- `win_spout_getheight` (lines 193-197). -/
def win_spout_getheight (s : WinSpout) : Nat :=
  s.height

/-- `win_spout_render` (lines 259-287): returns the unchanged state and
the texture drawn this frame, `none` when any of the three gates
(active, initialized, non-NULL texture) fails. The C function writes no
instance field. -/
def win_spout_render (s : WinSpout) : WinSpout × Option Nat :=
  if s.active = false then (s, none)
  else if s.initialized = false then (s, none)
  else
    match s.texture with
    | none => (s, none)
    | some t => (s, some t)

/-- `on_toggle_first_available` (lines 289-299): the properties
callback clears the custom name in the settings only when the
use-first-available boolean is false. -/
def on_toggle_first_available (st : Settings) : Settings :=
  if st.useFirst = false then { st with customName := "" } else st

/-! ### Concrete fixtures used by counterexamples and witnesses -/

/-- A freshly created, unbound instance: the state reached right after
win_spout_create with default settings and a valid spout pointer. -/
def unboundState : WinSpout :=
  { senderName := ""
    useFirstSender := true
    texture := none
    dxHandle := 0
    dxFormat := 0
    spoutValid := true
    lastCheckTick := 0
    width := 100
    height := 100
    initialized := false
    active := false }

/-- An environment with no active senders, observed at tick 10000. -/
def zeroSendersEnv : SpoutEnv :=
  { now := 10000
    sourceActive := false
    senderCount := 0
    senderName0 := none
    setActiveOk := fun _ => false
    senderInfo := fun _ => none
    openShared := fun _ => none }

/-- The same zero-sender world 1 ms later. -/
def zeroSendersEnvLater : SpoutEnv :=
  { zeroSendersEnv with now := 10001 }

/-- An environment in which a single 1920x1080 sender named A exists
and the shared-handle import succeeds, observed at tick 10000. -/
def oneSenderEnv : SpoutEnv :=
  { now := 10000
    sourceActive := true
    senderCount := 1
    senderName0 := some "A"
    setActiveOk := fun _ => true
    senderInfo := fun _ => some ⟨1920, 1080, 7, 87⟩
    openShared := fun _ => some 42 }

/-- Like `oneSenderEnv` except gs_texture_open_shared returns NULL. -/
def importFailEnv : SpoutEnv :=
  { oneSenderEnv with openShared := fun _ => none }

/-- A bound instance holding texture 42 with the dimensions of sender
A, as produced by a successful discovery. -/
def boundState : WinSpout :=
  { unboundState with
      senderName := "A"
      texture := some 42
      dxHandle := 7
      dxFormat := 87
      width := 1920
      height := 1080
      initialized := true
      active := true }

/-- A custom sender name of 300 characters, exceeding the 256-byte
senderName buffer. -/
def longName : String :=
  ⟨List.replicate 300 'a'⟩

/-! ### Frame lemmas shared by several results -/

/-- The by-name lookup never touches the timestamp, policy flag or
stored name of the instance. -/
theorem win_spout_lookup_frame (env : SpoutEnv) (s : WinSpout) :
    (win_spout_lookup env s).state.lastCheckTick = s.lastCheckTick ∧
    (win_spout_lookup env s).state.useFirstSender = s.useFirstSender ∧
    (win_spout_lookup env s).state.senderName = s.senderName := by
  unfold win_spout_lookup
  split <;> exact ⟨rfl, rfl, rfl⟩

/-- win_spout_init never writes lastCheckTick on any path. -/
theorem win_spout_init_lastCheckTick (env : SpoutEnv) (s : WinSpout)
    (forced : Bool) :
    (win_spout_init env s forced).state.lastCheckTick = s.lastCheckTick := by
  unfold win_spout_init win_spout_lookup
  repeat' split
  all_goals rfl

/-- win_spout_init never changes the useFirstSender policy flag. -/
theorem win_spout_init_useFirstSender (env : SpoutEnv) (s : WinSpout)
    (forced : Bool) :
    (win_spout_init env s forced).state.useFirstSender = s.useFirstSender := by
  unfold win_spout_init win_spout_lookup
  repeat' split
  all_goals rfl

/-- Whenever win_spout_init leaves the instance UNBOUND, the texture
field is untouched and the instance was already UNBOUND on entry. -/
theorem win_spout_init_unbound_frame (env : SpoutEnv) (s : WinSpout)
    (forced : Bool) :
    (win_spout_init env s forced).state.initialized = false →
    (win_spout_init env s forced).state.texture = s.texture ∧
      s.initialized = false := by
  unfold win_spout_init win_spout_lookup get_first_spount_sender
  repeat' split
  all_goals intro h
  all_goals simp_all

/-- An instance that is not initialized, has a zero lastCheckTick and a
valid spout pointer always issues exactly one GetSenderCount directory
query on init, forced or not. -/
theorem win_spout_init_queries (env : SpoutEnv) (s : WinSpout) (forced : Bool)
    (h1 : s.initialized = false) (h2 : s.lastCheckTick = 0)
    (h3 : s.spoutValid = true) :
    (win_spout_init env s forced).dirQueries = 1 := by
  unfold win_spout_init win_spout_lookup
  simp only [h1, h2, h3, Bool.false_eq_true, if_false]
  have hg : ¬(dwordSub5000 env.now < 0 ∧ forced = false) :=
    fun hc => Nat.not_lt_zero _ hc.1
  rw [if_neg hg]
  simp only [Bool.true_eq_false, if_false]
  repeat' split
  all_goals rfl

/-- win_spout_deinit: result fields and destroy count, spelled out. -/
theorem win_spout_deinit_frame (s : WinSpout) :
    (win_spout_deinit s).state.initialized = false ∧
    (win_spout_deinit s).state.texture = none ∧
    (win_spout_deinit s).state.lastCheckTick = s.lastCheckTick ∧
    (win_spout_deinit s).state.spoutValid = s.spoutValid ∧
    (win_spout_deinit s).state.useFirstSender = s.useFirstSender ∧
    (win_spout_deinit s).state.width = s.width ∧
    (win_spout_deinit s).state.height = s.height ∧
    (win_spout_deinit s).state.senderName = s.senderName ∧
    (win_spout_deinit s).destroys = (if s.texture.isSome then 1 else 0) := by
  rcases htex : s.texture with _ | t <;>
    simp [win_spout_deinit, htex]

/-! ### Claim results -/

/-- C1 counterexample: in an environment where one sender is active,
every directory call succeeds, but gs_texture_open_shared returns
NULL, win_spout_init leaves a fresh unbound instance with
initialized = true AND texture = NULL, contradicting the claim that
the instance is never BOUND with a null texture. -/
theorem init_bound_null_texture_counterexample :
    (win_spout_init importFailEnv unboundState false).state.initialized = true ∧
    (win_spout_init importFailEnv unboundState false).state.texture = none := by
  decide

/-- C1 (amended): after win_spout_init the instance is never UNBOUND
with a non-null texture (whenever the result is UNBOUND its texture
field is exactly the entry texture, so null if the entry invariant
held); but when the shared-handle import returns NULL the instance
still becomes BOUND with a null texture, and ticks issue no further
discovery while BOUND, so it does not retry. -/
theorem init_texture_state_coherence :
    (∀ env s forced, (s.initialized = false → s.texture = none) →
      (win_spout_init env s forced).state.initialized = false →
      (win_spout_init env s forced).state.texture = none) ∧
    ((win_spout_init importFailEnv unboundState false).state.initialized = true ∧
      (win_spout_init importFailEnv unboundState false).state.texture = none) ∧
    (∀ env s, s.initialized = true → (win_spout_tick env s).dirQueries = 0) := by
  refine ⟨?_, by decide, ?_⟩
  · intro env s forced h hres
    obtain ⟨ht, hi⟩ := win_spout_init_unbound_frame env s forced hres
    rw [ht, h hi]
  · intro env s h
    unfold win_spout_tick
    simp [h]

/-- C1 witness: the general coherence part applied at a concrete
unbound instance in the zero-sender environment. -/
theorem init_texture_state_coherence_witness :
    (win_spout_init zeroSendersEnv unboundState false).state.texture = none :=
  init_texture_state_coherence.1 zeroSendersEnv unboundState false
    (fun _ => rfl) (by decide)

/-- C2: two consecutive non-forced ticks 1 ms apart on an UNBOUND
instance each issue a GetSenderCount directory query (2 in total,
refuting the at-most-one rate limit): lastCheckTick is never assigned
anywhere in the code, so the 5000 ms guard never fires. -/
theorem tick_rate_limit_violated :
    (win_spout_tick zeroSendersEnv unboundState).dirQueries = 1 ∧
    (win_spout_tick zeroSendersEnvLater
      (win_spout_tick zeroSendersEnv unboundState).state).dirQueries = 1 ∧
    zeroSendersEnvLater.now - zeroSendersEnv.now < 5000 := by
  decide

/-- C3: no operation ever writes lastCheckTick — init, deinit, update
and tick all leave it exactly as found (it stays 0 from the bzalloc in
win_spout_create); concretely, a successful discovery attempt observed
at GetTickCount = 10000 issues its directory query, binds, and still
leaves lastCheckTick = 0 instead of recording 10000. -/
theorem init_never_records_lastCheckTick :
    (∀ env s forced,
      (win_spout_init env s forced).state.lastCheckTick = s.lastCheckTick) ∧
    (∀ s, (win_spout_deinit s).state.lastCheckTick = s.lastCheckTick) ∧
    (∀ env s st,
      (win_spout_update env s st).state.lastCheckTick = s.lastCheckTick) ∧
    (∀ env s, (win_spout_tick env s).state.lastCheckTick = s.lastCheckTick) ∧
    (win_spout_init oneSenderEnv unboundState false).dirQueries = 1 ∧
    (win_spout_init oneSenderEnv unboundState false).state.initialized = true ∧
    (win_spout_init oneSenderEnv unboundState false).state.lastCheckTick = 0 ∧
    oneSenderEnv.now = 10000 := by
  refine ⟨win_spout_init_lastCheckTick, ?_, ?_, ?_, by decide, by decide,
    by decide, rfl⟩
  · intro s
    exact (win_spout_deinit_frame s).2.2.1
  · intro env s st
    unfold win_spout_update
    dsimp only
    split
    · rw [win_spout_init_lastCheckTick]
      exact (win_spout_deinit_frame _).2.2.1
    · rfl
  · intro env s
    unfold win_spout_tick
    dsimp only
    split
    · rfl
    · rw [win_spout_init_lastCheckTick]

/-- C4: when a configuration update hits a bound instance (with the
lastCheckTick = 0 that every reachable instance carries, since nothing
ever writes it) and a valid spout pointer, the binding is destroyed
(one texture destroy exactly when a texture was held) and a discovery
attempt with the new policy issues its directory query immediately,
for every wall-clock time in the environment — the 5000 ms guard never
blocks it. -/
theorem update_forces_immediate_discovery (env : SpoutEnv) (s : WinSpout)
    (st : Settings) (hb : s.initialized = true) (hl : s.lastCheckTick = 0)
    (hv : s.spoutValid = true) :
    (win_spout_update env s st).destroys = (if s.texture.isSome then 1 else 0) ∧
    (win_spout_update env s st).dirQueries = 1 ∧
    (win_spout_update env s st).state.useFirstSender = st.useFirst := by
  have hd := win_spout_deinit_frame
    { s with useFirstSender := st.useFirst, senderName := st.customName }
  have hq := win_spout_init_queries env
    (win_spout_deinit
      { s with useFirstSender := st.useFirst, senderName := st.customName }).state
    false hd.1 (by rw [hd.2.2.1]; exact hl) (by rw [hd.2.2.2.1]; exact hv)
  have hu := win_spout_init_useFirstSender env
    (win_spout_deinit
      { s with useFirstSender := st.useFirst, senderName := st.customName }).state
    false
  unfold win_spout_update
  dsimp only
  rw [if_pos (show s.initialized = true from hb)]
  refine ⟨?_, hq, ?_⟩
  · exact hd.2.2.2.2.2.2.2.2
  · rw [hu, hd.2.2.2.2.1]

/-- C4 witness: the update theorem applied to the concrete bound
instance with a one-sender environment. -/
theorem update_forces_immediate_discovery_witness :
    (win_spout_update oneSenderEnv boundState ⟨true, "B"⟩).destroys =
      (if boundState.texture.isSome then 1 else 0) ∧
    (win_spout_update oneSenderEnv boundState ⟨true, "B"⟩).dirQueries = 1 ∧
    (win_spout_update oneSenderEnv boundState ⟨true, "B"⟩).state.useFirstSender =
      true :=
  update_forces_immediate_discovery oneSenderEnv boundState ⟨true, "B"⟩ rfl rfl rfl

/-- C5 counterexample: updating an unbound instance with
use-first-available = true and the explicit name "foo" leaves the
stored name "foo", not the empty text the claim requires; the
properties callback likewise leaves the name untouched when the
boolean is true (it clears it only on false). -/
theorem update_name_not_cleared_counterexample :
    (win_spout_update zeroSendersEnv unboundState
      ⟨true, "foo"⟩).state.senderName = "foo" ∧
    (win_spout_update zeroSendersEnv unboundState
      ⟨true, "foo"⟩).state.senderName ≠ "" ∧
    on_toggle_first_available ⟨true, "foo"⟩ = ⟨true, "foo"⟩ := by
  decide

/-- C5 (amended): with use-first-available = true the explicit name is
NOT cleared — the callback only clears it when the boolean is false,
and update stores the configured text verbatim — but the name has no
effect on selection: under UseFirstAvailable a discovery attempt on an
unbound instance behaves identically for any two stored names (same
bound/unbound outcome, texture, dimensions and call counts), and when
it binds, the resulting stored name is the same first directory
sender for both. -/
theorem update_first_available_name_irrelevant :
    (∀ (st : Settings), st.useFirst = true →
      on_toggle_first_available st = st) ∧
    (∀ (st : Settings), st.useFirst = false →
      (on_toggle_first_available st).customName = "") ∧
    (∀ (env : SpoutEnv) (s : WinSpout) (st : Settings),
      st.useFirst = true → s.initialized = false →
      (win_spout_update env s st).state.senderName = st.customName ∧
      (win_spout_update env s st).state.useFirstSender = true) ∧
    (∀ (env : SpoutEnv) (s : WinSpout) (forced : Bool) (a b : String),
      s.useFirstSender = true → s.initialized = false →
      ((win_spout_init env { s with senderName := a } forced).state.initialized =
        (win_spout_init env { s with senderName := b } forced).state.initialized ∧
       (win_spout_init env { s with senderName := a } forced).state.texture =
        (win_spout_init env { s with senderName := b } forced).state.texture ∧
       (win_spout_init env { s with senderName := a } forced).state.width =
        (win_spout_init env { s with senderName := b } forced).state.width ∧
       (win_spout_init env { s with senderName := a } forced).state.height =
        (win_spout_init env { s with senderName := b } forced).state.height ∧
       (win_spout_init env { s with senderName := a } forced).dirQueries =
        (win_spout_init env { s with senderName := b } forced).dirQueries ∧
       (win_spout_init env { s with senderName := a } forced).lookups =
        (win_spout_init env { s with senderName := b } forced).lookups ∧
       ((win_spout_init env { s with senderName := a } forced).state.initialized =
          true →
        (win_spout_init env { s with senderName := a } forced).state.senderName =
         (win_spout_init env { s with senderName := b } forced).state.senderName))) := by
  refine ⟨?_, ?_, ?_, ?_⟩
  · intro st h
    unfold on_toggle_first_available
    rw [if_neg (show ¬st.useFirst = false by rw [h]; decide)]
  · intro st h
    unfold on_toggle_first_available
    rw [if_pos h]
  · intro env s st h1 h2
    unfold win_spout_update
    dsimp only
    rw [if_neg (show ¬s.initialized = true by rw [h2]; decide)]
    exact ⟨rfl, h1⟩
  · intro env s forced a b hu hi
    have hvac : ¬s.initialized = true := by rw [hi]; decide
    by_cases hg : dwordSub5000 env.now < s.lastCheckTick ∧ forced = false
    · unfold win_spout_init
      dsimp only
      rw [if_neg hvac, if_neg hvac, if_pos hg, if_pos hg]
      exact ⟨rfl, rfl, rfl, rfl, rfl, rfl, fun h => absurd h hvac⟩
    · by_cases hsv : s.spoutValid = false
      · unfold win_spout_init
        dsimp only
        rw [if_neg hvac, if_neg hvac, if_neg hg, if_neg hg, if_pos hsv,
            if_pos hsv]
        exact ⟨rfl, rfl, rfl, rfl, rfl, rfl, fun h => absurd h hvac⟩
      · unfold win_spout_init get_first_spount_sender
        dsimp only
        rw [if_neg hvac, if_neg hvac, if_neg hg, if_neg hg, if_neg hsv,
            if_neg hsv, if_pos hu, if_pos hu]
        rcases hcnt : env.senderCount with _ | k
        · rw [if_pos rfl, if_pos rfl]
          exact ⟨rfl, rfl, rfl, rfl, rfl, rfl, fun h => absurd h hvac⟩
        · rw [if_neg (Nat.succ_ne_zero k), if_neg (Nat.succ_ne_zero k)]
          rcases hn0 : env.senderName0 with _ | n
          · exact ⟨rfl, rfl, rfl, rfl, rfl, rfl, fun h => absurd h hvac⟩
          · dsimp only
            by_cases hact : env.setActiveOk n = true
            · rw [if_pos hact]
              exact ⟨rfl, rfl, rfl, rfl, rfl, rfl, fun _ => rfl⟩
            · rw [if_neg hact]
              exact ⟨rfl, rfl, rfl, rfl, rfl, rfl, fun h => absurd h hvac⟩

/-- C5 witness: the update part applied at a concrete unbound instance
with use-first-available true and the name "bar". -/
theorem update_first_available_name_irrelevant_witness :
    (win_spout_update zeroSendersEnv unboundState
      ⟨true, "bar"⟩).state.senderName = "bar" ∧
    (win_spout_update zeroSendersEnv unboundState
      ⟨true, "bar"⟩).state.useFirstSender = true :=
  update_first_available_name_irrelevant.2.2.1 zeroSendersEnv unboundState
    ⟨true, "bar"⟩ rfl rfl

/-- C6: hiding a bound instance with a live texture transitions it to
UNBOUND, destroys the texture exactly once and nulls the pointer, so a
following deinit (hide then destroy) performs zero further destroys
and no non-null texture is left behind. -/
theorem hide_destroys_texture_exactly_once (s : WinSpout) (t : Nat)
    (_hb : s.initialized = true) (ht : s.texture = some t) :
    (win_spout_hide s).state.initialized = false ∧
    (win_spout_hide s).state.texture = none ∧
    (win_spout_hide s).destroys = 1 ∧
    (win_spout_deinit (win_spout_hide s).state).destroys = 0 := by
  have h1 := win_spout_deinit_frame s
  have h2 := win_spout_deinit_frame (win_spout_deinit s).state
  unfold win_spout_hide
  refine ⟨h1.1, h1.2.1, ?_, ?_⟩
  · rw [h1.2.2.2.2.2.2.2.2, ht]
    rfl
  · rw [h2.2.2.2.2.2.2.2.2, h1.2.1]
    rfl

/-- C6 witness: the hide theorem applied to the concrete bound instance
holding texture 42. -/
theorem hide_destroys_texture_exactly_once_witness :
    (win_spout_hide boundState).state.initialized = false ∧
    (win_spout_hide boundState).state.texture = none ∧
    (win_spout_hide boundState).destroys = 1 ∧
    (win_spout_deinit (win_spout_hide boundState).state).destroys = 0 :=
  hide_destroys_texture_exactly_once boundState 42 rfl rfl

/-- C7: the render path draws the bound texture exactly when active,
initialized and a non-null texture all hold, and returns the instance
state unchanged in every case — it writes no field. -/
theorem render_gate_pure_read (s : WinSpout) (t : Nat) :
    ((win_spout_render s).2 = some t ↔
      s.active = true ∧ s.initialized = true ∧ s.texture = some t) ∧
    (win_spout_render s).1 = s := by
  obtain ⟨nm, uf, tex, dh, df, sv, lc, w, hgt, ini, act⟩ := s
  cases act <;> cases ini <;> rcases tex with _ | u <;>
    simp [win_spout_render]

/-- C8: whenever the directory reports zero active senders,
win_spout_init returns with the instance state completely unchanged
(in particular still UNBOUND with its width and height intact) and
performs no GetSenderInfo by-name lookup, under either policy, forced
or not. -/
theorem init_zero_senders_no_lookup (env : SpoutEnv) (s : WinSpout)
    (forced : Bool) (h : env.senderCount = 0) :
    (win_spout_init env s forced).state = s ∧
    (win_spout_init env s forced).lookups = 0 := by
  unfold win_spout_init get_first_spount_sender
  rw [h]
  by_cases hb1 : s.initialized = true
  · rw [if_pos hb1]
    exact ⟨rfl, rfl⟩
  · rw [if_neg hb1]
    by_cases hg : dwordSub5000 env.now < s.lastCheckTick ∧ forced = false
    · rw [if_pos hg]
      exact ⟨rfl, rfl⟩
    · rw [if_neg hg]
      by_cases hsv : s.spoutValid = false
      · rw [if_pos hsv]
        exact ⟨rfl, rfl⟩
      · rw [if_neg hsv]
        by_cases hu : s.useFirstSender = true
        · rw [if_pos hu, if_pos rfl]
          exact ⟨rfl, rfl⟩
        · rw [if_neg hu, if_pos rfl]
          exact ⟨rfl, rfl⟩

/-- C8 witness: zero-sender environment, fresh unbound instance. -/
theorem init_zero_senders_no_lookup_witness :
    (win_spout_init zeroSendersEnv unboundState false).state = unboundState ∧
    (win_spout_init zeroSendersEnv unboundState false).lookups = 0 :=
  init_zero_senders_no_lookup zeroSendersEnv unboundState false rfl

set_option maxRecDepth 4000 in
/-- C9: win_spout_update stores an arbitrary-length configured name
unchanged — with a 300-character input the stored name has length 300,
exceeding the 255-code-unit bound the 256-byte senderName buffer
admits; the C strcpy at line 173 writes all 301 bytes into it. -/
theorem update_name_overflow :
    (win_spout_update zeroSendersEnv unboundState
      ⟨false, longName⟩).state.senderName = longName ∧
    longName.length = 300 ∧
    255 < longName.length := by
  have hlen : longName.length = 300 := by
    simp [longName, String.length]
  exact ⟨by decide, hlen, by rw [hlen]; decide⟩

/-- C10: hide (deinit) leaves width and height untouched, so
get_width and get_height keep reporting the last bound dimensions
while UNBOUND; and a freshly created instance reports the 100x100
placeholder whatever the settings, environment and spout-pointer
validity. -/
theorem deinit_preserves_dimensions :
    (∀ (s : WinSpout),
      (win_spout_hide s).state.width = s.width ∧
      (win_spout_hide s).state.height = s.height ∧
      win_spout_getwidth (win_spout_hide s).state = s.width ∧
      win_spout_getheight (win_spout_hide s).state = s.height) ∧
    (∀ (env : SpoutEnv) (st : Settings) (v : Bool),
      (win_spout_create env st v).state.width = 100 ∧
      (win_spout_create env st v).state.height = 100 ∧
      win_spout_getwidth (win_spout_create env st v).state = 100 ∧
      win_spout_getheight (win_spout_create env st v).state = 100) := by
  constructor
  · intro s
    have h := win_spout_deinit_frame s
    exact ⟨h.2.2.2.2.2.1, h.2.2.2.2.2.2.1, h.2.2.2.2.2.1, h.2.2.2.2.2.2.1⟩
  · intro env st v
    unfold win_spout_create win_spout_update
    dsimp only
    exact ⟨rfl, rfl, rfl, rfl⟩
